import Mathlib

/-!
Shallow embedding of the LGHacksV2 repository core:
`src/main.py` (Flask event ingest, NGO matching, notification dispatch)
and `src/serialbridge.py` (serial device bridge: port choice, rate limiting).

Python dynamic values that flow through the ingest path are modelled by
`JVal`; Python truthiness (`or`, `if x:`) is modelled explicitly.
External effects (the Twilio provider, the serial device, stdin) are
modelled as explicit parameters, so every definition is executable.
-/

namespace LGHacks

/-- A Python/JSON value as it appears in the ingest request body. -/
inductive JVal where
  | jnull
  | jbool (b : Bool)
  | jint (n : Int)
  | jstr (s : String)
deriving DecidableEq, Repr

/-- Python truthiness of a `JVal` (`None`, `False`, `0`, `""` are falsy). -/
def JVal.truthy : JVal → Bool
  | .jnull => false
  | .jbool b => b
  | .jint n => n != 0
  | .jstr s => s != ""

/-- Python `str(v)`, as used by f-string interpolation. -/
def JVal.pyStr : JVal → String
  | .jnull => "None"
  | .jbool true => "True"
  | .jbool false => "False"
  | .jint n => toString n
  | .jstr s => s

/-- Python `a or b`: `a` when truthy, else `b`. -/
def pyOr (a b : JVal) : JVal := if a.truthy then a else b

/-- The ingest request body (`request.get_json() or {}` in `receive_event`),
restricted to the keys the handler reads; an absent key is `none`. -/
structure ReqData where
  device_id : Option JVal
  event : Option JVal
  event_type : Option JVal
deriving DecidableEq, Repr

/-- `data.get(key)`: `None` when the key is absent. -/
def getOrNull (v : Option JVal) : JVal := v.getD .jnull

/-- An `NGO` row (`class NGO(db.Model)` in `src/main.py`); only the columns
the notification path reads are carried. -/
structure NGO where
  id : Nat
  name : String
  phone : Option JVal
deriving DecidableEq, Repr

/-- `match_ngos_for_event` from `src/main.py`: if no NGOs are registered
return `[]`, otherwise the first 10 NGOs in storage order (`ngos[:10]`).
The event argument is only used for logging in the source. -/
def match_ngos_for_event (event_json : ReqData) (ngos : List NGO) : List NGO :=
  if ngos.isEmpty then []
  else ngos.take 10

/-- One entry of the list `notify_ngos` returns:
`{"ngo": ngo.name, "phone": ngo.phone, "message": text}`. -/
structure MsgRecord where
  ngo : String
  phone : Option JVal
  message : String
deriving DecidableEq, Repr

/-- The high-urgency alert text built in `notify_ngos` for
`event_type == "possible_encampment"`. -/
def alertText (device_id : JVal) : String :=
  "🚨 ALERT: Person needs assistance at " ++ device_id.pyStr ++
    ". They have been present for 3+ minutes. Please respond."

/-- The informational text built in `notify_ngos` for every other type. -/
def infoText (device_id : JVal) : String :=
  "⚠️ NOTIFICATION: Motion detected at " ++ device_id.pyStr ++
    ". Monitoring situation."

/-- The message text `notify_ngos` builds for one NGO. Note that it reads
the raw request's `event_type` key (`event.get('event_type', 'unknown')`),
not the event type `receive_event` resolved from `event`/`event_type`. -/
def messageText (event : ReqData) : String :=
  let event_type := (event.event_type).getD (.jstr "unknown")
  let device_id := (event.device_id).getD (.jstr "unknown")
  if event_type = .jstr "possible_encampment" then alertText device_id
  else infoText device_id

/-- Outcome of the per-NGO Twilio attempt in `notify_ngos` (these outcomes
are printed, not returned: the returned list carries no `sent` flag). -/
inductive SendOutcome where
  | skipped
  | sent
  | failed
deriving DecidableEq, Repr

/-- Truthiness of `TWILIO_SID and ngo.phone`. -/
def wantsSend (twilio_sid : Option String) (ngo : NGO) : Bool :=
  (match twilio_sid with | some s => s != "" | none => false) &&
    (getOrNull ngo.phone).truthy

/-- The provider attempt for one NGO: `client.messages.create(...)` inside
`try/except`. `send ngo = Except.error e` models the Twilio call raising;
the handler catches and logs it, so no outcome escapes the loop body. -/
def attemptSend (twilio_sid : Option String) (send : NGO → Except String Unit)
    (ngo : NGO) : SendOutcome :=
  if wantsSend twilio_sid ngo then
    match send ngo with
    | .ok _ => .sent
    | .error _ => .failed
  else .skipped

/-- `notify_ngos` from `src/main.py`: for each NGO append one message
record; the Twilio attempt (success, failure, or skip) is wrapped in
`try/except` and leaves both the accumulated list and the loop untouched,
so the returned list is exactly one record per NGO. -/
def notify_ngos (twilio_sid : Option String) (send : NGO → Except String Unit)
    (ngos : List NGO) (event : ReqData) : List MsgRecord :=
  ngos.foldl
    (fun msgs ngo =>
      let text := messageText event
      let msgs := msgs ++ [{ ngo := ngo.name, phone := ngo.phone, message := text }]
      let _outcome := attemptSend twilio_sid send ngo
      msgs)
    []

/-- The per-NGO provider outcomes of a `notify_ngos` run (the printed
`✓ SMS sent` / `✗ Twilio error` lines), for reasoning about dispatch. -/
def sendOutcomes (twilio_sid : Option String) (send : NGO → Except String Unit)
    (ngos : List NGO) : List SendOutcome :=
  ngos.map (attemptSend twilio_sid send)

/-- An `Event` row (`class Event(db.Model)`): `status` defaults to `"new"`,
`matched_ngos` to SQL `NULL` (`none`). -/
structure EventRec where
  id : Nat
  device_id : JVal
  event_type : JVal
  raw : ReqData
  matched_ngos : Option String
  status : String
deriving DecidableEq, Repr

/-- The JSON body `receive_event` returns. -/
structure ApiResponse where
  status : String
  event_id : Nat
  notified : Option (List MsgRecord)
  message : String
deriving DecidableEq, Repr

/-- The event type `receive_event` resolves:
`data.get("event") or data.get("event_type") or "unknown"`. -/
def resolvedEventType (data : ReqData) : JVal :=
  pyOr (getOrNull data.event) (pyOr (getOrNull data.event_type) (.jstr "unknown"))

/-- Python `","` `.join` on a list of strings. -/
def joinComma : List String → String
  | [] => ""
  | [a] => a
  | a :: rest => a ++ "," ++ joinComma rest

/-- `",".join([str(n.id) for n in ngos])`. -/
def joinIds (ngos : List NGO) : String :=
  joinComma (ngos.map (fun n => toString n.id))

/-- `receive_event` from `src/main.py`, as a function of the request body,
the NGO table, the Twilio configuration/provider, and the id the database
assigns the new row. Returns the persisted `Event` row as it stands when
the handler returns, together with the response body. -/
def receive_event (twilio_sid : Option String) (send : NGO → Except String Unit)
    (ngos : List NGO) (data : ReqData) (new_id : Nat) : EventRec × ApiResponse :=
  let device_id := (data.device_id).getD (.jstr "unknown")
  let event_type := resolvedEventType data
  let ev : EventRec :=
    { id := new_id, device_id := device_id, event_type := event_type,
      raw := data, matched_ngos := none, status := "new" }
  let should_notify := event_type = .jstr "possible_encampment"
  if should_notify then
    let matched := match_ngos_for_event data ngos
    if matched.isEmpty then
      (ev, { status := "warning", event_id := new_id, notified := none,
             message := "Event saved but no NGOs registered" })
    else
      let notified := notify_ngos twilio_sid send matched data
      let ev := { ev with matched_ngos := some (joinIds matched), status := "notified" }
      (ev, { status := "ok", event_id := new_id, notified := some notified,
             message := "Alert sent to " ++ toString matched.length ++ " NGOs" })
  else
    (ev, { status := "ok", event_id := new_id, notified := none,
           message := "Event logged" })

/-!
Embedding of `src/serialbridge.py`.
-/

/-- `MIN_INTERVAL = 2` (seconds) from `src/serialbridge.py`. -/
def MIN_INTERVAL : Int := 2

/-- A parsed serial payload, restricted to the keys the bridge touches.
Device timestamps are Python ints, hence `Int`. -/
structure Payload where
  device_id : Option JVal
  timestamp_ms : Option Int
deriving DecidableEq, Repr

/-- The two `payload.setdefault` calls in the read loop: fill `device_id`
and `timestamp_ms` only when absent, never overriding provided values.
`now_ms` is the bridge wall clock `int(time.time() * 1000)`. -/
def fillDefaults (now_ms : Int) (p : Payload) : Payload :=
  { device_id := some ((p.device_id).getD (.jstr "ELEGOO_PROTO_01")),
    timestamp_ms := some ((p.timestamp_ms).getD now_ms) }

/-- The rate-limiting step of the read loop (lines 109-116 of
`src/serialbridge.py`): given the watermark `last_event_time` (initially
`0`) and the payload's `timestamp_ms`, drop when the watermark is `> 0`
and the payload is less than `MIN_INTERVAL * 1000` ms after it; otherwise
forward and set the watermark to this payload's timestamp. Returns the new
watermark and whether the payload was forwarded. -/
def rateLimitStep (last_event_time current_time : Int) : Int × Bool :=
  if last_event_time > 0 ∧ current_time - last_event_time < MIN_INTERVAL * 1000 then
    (last_event_time, false)
  else
    (current_time, true)

/-- One non-empty, parsed line of the read loop: default-fill, then
rate-limit; returns the new watermark and the payload handed to
`send_to_backend`, if any. -/
def processPayload (last_event_time now_ms : Int) (p : Payload) :
    Int × Option Payload :=
  let p := fillDefaults now_ms p
  let current_time := (p.timestamp_ms).getD 0
  let r := rateLimitStep last_event_time current_time
  (r.1, if r.2 then some p else none)

/-- The classified user reply to the port prompt, after `.strip()`:
blank, a (case-insensitive) `q`, an integer, or anything unparsable
(`ValueError` branch: "Invalid selection, using first port"). -/
inductive UserInput where
  | blank
  | quit
  | num (i : Int)
  | invalid
deriving DecidableEq, Repr

/-- Truthiness of the `preferred` argument (`if preferred:`). -/
def prefTruthy : Option String → Bool
  | some p => p != ""
  | none => false

/-- `choose_port` from `src/serialbridge.py`. `avail p` models opening and
closing serial port `p` succeeding; `ports` is the enumerated device list
(`list_ports.comports()`); `interactive` is `sys.stdin.isatty()`; `inp` is
the classified reply, `none` meaning `input()` itself raised (the
surrounding `except` then auto-selects the first port). -/
def choose_port (avail : String → Bool) (preferred : Option String)
    (ports : List String) (interactive : Bool) (inp : Option UserInput) :
    Option String :=
  if prefTruthy preferred && avail ((preferred).getD "") then preferred
  else if ports.isEmpty then none
  else if interactive then
    match inp with
    | none => ports[0]?
    | some .quit => none
    | some u =>
      let idx : Int := match u with
        | .num i => i
        | _ => 1
      let idx := max 1 (min (ports.length : Int) idx)
      ports[(idx - 1).toNat]?
  else ports[0]?

/-!
A small operational model of the event store, for the invariant claim:
the only operations that touch `Event` rows in `src/main.py` are the
ingest handler (`receive_event`, which inserts one row and possibly
updates it before returning) and the bulk `clear_events` handler
(`Event.query.delete()`).
-/

/-- An operation on the event table. -/
inductive StoreOp where
  | ingest (twilio_sid : Option String) (send : NGO → Except String Unit)
      (ngos : List NGO) (data : ReqData)
  | clear

/-- Apply one operation to the stored rows; ingest persists the row
`receive_event` leaves behind (id from the autoincrement column). -/
def applyOp (store : List EventRec) : StoreOp → List EventRec
  | .ingest twilio_sid send ngos data =>
      store ++ [(receive_event twilio_sid send ngos data (store.length + 1)).1]
  | .clear => []

/-- The store reached by a sequence of operations from the empty table. -/
def runOps (ops : List StoreOp) : List EventRec :=
  ops.foldl applyOp []

/-- The spec's Event invariant: `status = NOTIFIED ⇒ matched_responders
non-empty` (the column holds a comma-joined, hence non-empty, id string). -/
def eventInv (e : EventRec) : Prop :=
  e.status = "notified" → ∃ s, e.matched_ngos = some s ∧ s ≠ ""

end LGHacks

namespace LGHacks

/-! ### Helper lemmas -/

theorem toDigitsCore_length_le (b : Nat) :
    ∀ (fuel n : Nat) (ds : List Char),
      ds.length ≤ (Nat.toDigitsCore b fuel n ds).length := by
  intro fuel
  induction fuel with
  | zero => intro n ds; simp [Nat.toDigitsCore]
  | succ f ih =>
    intro n ds
    simp only [Nat.toDigitsCore]
    split
    · simp
    · exact le_trans (by simp) (ih (n / b) (Nat.digitChar (n % b) :: ds))

theorem natToString_ne_empty (n : Nat) : toString n ≠ "" := by
  show Nat.repr n ≠ ""
  have h : 1 ≤ (Nat.toDigits 10 n).length := by
    unfold Nat.toDigits
    simp only [Nat.toDigitsCore]
    split
    · simp
    · exact le_trans (by simp)
        (toDigitsCore_length_le 10 n (n / 10) [Nat.digitChar (n % 10)])
  intro hcontra
  have hdata : (Nat.toDigits 10 n) = ([] : List Char) := by
    have := congrArg String.data hcontra
    simpa [Nat.repr, List.asString] using this
  rw [hdata] at h
  simp at h

theorem joinComma_ne_empty (a : String) (rest : List String) (ha : a ≠ "") :
    joinComma (a :: rest) ≠ "" := by
  cases rest with
  | nil => simpa [joinComma] using ha
  | cons b t =>
    simp only [joinComma]
    intro hcontra
    have hlen := congrArg String.length hcontra
    simp [String.length_append] at hlen
    exact ha (by cases a with | _ d => cases d with | nil => rfl | cons c cs => simp at hlen)

theorem joinIds_ne_empty (n : NGO) (rest : List NGO) :
    joinIds (n :: rest) ≠ "" := by
  simpa [joinIds] using joinComma_ne_empty _ _ (natToString_ne_empty n.id)

theorem notify_ngos_foldl (twilio_sid : Option String)
    (send : NGO → Except String Unit) (event : ReqData) :
    ∀ (ngos : List NGO) (acc : List MsgRecord),
      ngos.foldl
        (fun msgs ngo =>
          let text := messageText event
          let msgs := msgs ++ [{ ngo := ngo.name, phone := ngo.phone, message := text }]
          let _outcome := attemptSend twilio_sid send ngo
          msgs)
        acc =
      acc ++ ngos.map
        (fun n => { ngo := n.name, phone := n.phone, message := messageText event }) := by
  intro ngos
  induction ngos with
  | nil => intro acc; simp
  | cons n t ih => intro acc; simp [List.foldl_cons, ih]

/-- The loop of `notify_ngos` appends exactly one record per NGO, in
order; the provider attempts never change the returned list. -/
theorem notify_ngos_eq_map (twilio_sid : Option String)
    (send : NGO → Except String Unit) (ngos : List NGO) (event : ReqData) :
    notify_ngos twilio_sid send ngos event =
      ngos.map (fun n => { ngo := n.name, phone := n.phone, message := messageText event }) := by
  simpa [notify_ngos] using notify_ngos_foldl twilio_sid send event ngos []

theorem match_ngos_nonempty (event_json : ReqData) (ngos : List NGO)
    (h : ngos ≠ []) :
    match_ngos_for_event event_json ngos = ngos.take 10 ∧
      (ngos.take 10).isEmpty = false := by
  cases ngos with
  | nil => exact absurd rfl h
  | cons n t => simp [match_ngos_for_event, List.take_succ_cons]

/-- Full characterization of the handler on a critical event with at
least one NGO registered. -/
theorem receive_event_critical (twilio_sid : Option String)
    (send : NGO → Except String Unit) (ngos : List NGO) (data : ReqData)
    (new_id : Nat)
    (htype : resolvedEventType data = .jstr "possible_encampment")
    (hngos : ngos ≠ []) :
    receive_event twilio_sid send ngos data new_id =
      ({ id := new_id, device_id := (data.device_id).getD (.jstr "unknown"),
         event_type := resolvedEventType data, raw := data,
         matched_ngos := some (joinIds (ngos.take 10)), status := "notified" },
       { status := "ok", event_id := new_id,
         notified := some ((ngos.take 10).map
           (fun n => { ngo := n.name, phone := n.phone, message := messageText data })),
         message := "Alert sent to " ++ toString (ngos.take 10).length ++ " NGOs" }) := by
  obtain ⟨hmatch, hne⟩ := match_ngos_nonempty data ngos hngos
  simp only [receive_event, htype, hmatch, hne, notify_ngos_eq_map]
  simp

/-- Full characterization of the handler on a non-critical event. -/
theorem receive_event_noncritical (twilio_sid : Option String)
    (send : NGO → Except String Unit) (ngos : List NGO) (data : ReqData)
    (new_id : Nat)
    (htype : resolvedEventType data ≠ .jstr "possible_encampment") :
    receive_event twilio_sid send ngos data new_id =
      ({ id := new_id, device_id := (data.device_id).getD (.jstr "unknown"),
         event_type := resolvedEventType data, raw := data,
         matched_ngos := none, status := "new" },
       { status := "ok", event_id := new_id, notified := none,
         message := "Event logged" }) := by
  simp only [receive_event, if_neg htype]

/-- Full characterization of the handler on a critical event when no NGO
is registered. -/
theorem receive_event_critical_empty (twilio_sid : Option String)
    (send : NGO → Except String Unit) (data : ReqData) (new_id : Nat)
    (htype : resolvedEventType data = .jstr "possible_encampment") :
    receive_event twilio_sid send [] data new_id =
      ({ id := new_id, device_id := (data.device_id).getD (.jstr "unknown"),
         event_type := resolvedEventType data, raw := data,
         matched_ngos := none, status := "new" },
       { status := "warning", event_id := new_id, notified := none,
         message := "Event saved but no NGOs registered" }) := by
  simp [receive_event, htype, match_ngos_for_event]

/-- Every row the ingest handler leaves behind satisfies the Event
invariant. -/
theorem receive_event_inv (twilio_sid : Option String)
    (send : NGO → Except String Unit) (ngos : List NGO) (data : ReqData)
    (new_id : Nat) :
    eventInv (receive_event twilio_sid send ngos data new_id).1 := by
  by_cases htype : resolvedEventType data = .jstr "possible_encampment"
  · cases ngos with
    | nil =>
      rw [receive_event_critical_empty twilio_sid send data new_id htype]
      intro h
      simp at h
    | cons n t =>
      rw [receive_event_critical twilio_sid send (n :: t) data new_id htype (by simp)]
      intro _
      exact ⟨joinIds ((n :: t).take 10), rfl, by
        simpa [List.take_succ_cons] using joinIds_ne_empty n (t.take 9)⟩
  · rw [receive_event_noncritical twilio_sid send ngos data new_id htype]
    intro h
    simp at h

/-! ### Concrete sample inputs (used by witnesses and counterexamples) -/

/-- A provider whose send always succeeds. -/
def okSend : NGO → Except String Unit := fun _ => .ok ()

/-- A provider whose send always raises (caught inside `notify_ngos`). -/
def failSend : NGO → Except String Unit := fun _ => .error "Twilio error"

/-- A sample registered NGO. -/
def sampleNGO : NGO := { id := 1, name := "Shelter A", phone := some (.jstr "5551234") }

/-- A critical request supplying the type under the `event_type` key. -/
def sampleData : ReqData :=
  { device_id := some (.jstr "D1"), event := none,
    event_type := some (.jstr "possible_encampment") }

/-- A non-critical request: `{"device_id": "D1", "event": "motion"}`. -/
def motionData : ReqData :=
  { device_id := some (.jstr "D1"), event := some (.jstr "motion"),
    event_type := none }

/-- A critical request supplying the type only under the `event` key:
`{"device_id": "D1", "event": "possible_encampment"}`. -/
def eventKeyOnlyData : ReqData :=
  { device_id := some (.jstr "D1"), event := some (.jstr "possible_encampment"),
    event_type := none }

/-- The empty request body (`request.get_json() or {}` with no keys). -/
def emptyData : ReqData := { device_id := none, event := none, event_type := none }

end LGHacks

namespace LGHacks

/-! ### Claims -/

/-- C1: For every ingest request whose event type is "possible_encampment"
and with at least one responder on file, the stored Event's status becomes
NOTIFIED and its matched_responders list has length min(10, responder_count),
the matched responders being the first min(10, len(candidates)) candidates
in their storage order. -/
theorem C1_critical_match_and_notify (twilio_sid : Option String)
    (send : NGO → Except String Unit) (ngos : List NGO) (data : ReqData)
    (new_id : Nat)
    (htype : resolvedEventType data = .jstr "possible_encampment")
    (hngos : ngos ≠ []) :
    (receive_event twilio_sid send ngos data new_id).1.status = "notified" ∧
    (receive_event twilio_sid send ngos data new_id).1.matched_ngos
      = some (joinIds (ngos.take 10)) ∧
    (receive_event twilio_sid send ngos data new_id).2.notified
      = some ((ngos.take 10).map
          (fun n => { ngo := n.name, phone := n.phone, message := messageText data })) ∧
    (ngos.take 10).length = min 10 ngos.length := by
  rw [receive_event_critical twilio_sid send ngos data new_id htype hngos]
  exact ⟨rfl, rfl, rfl, List.length_take 10 ngos⟩

theorem C1_critical_match_and_notify_witness :
    (receive_event none okSend [sampleNGO] sampleData 1).1.status = "notified" ∧
    (receive_event none okSend [sampleNGO] sampleData 1).1.matched_ngos
      = some (joinIds ([sampleNGO].take 10)) ∧
    (receive_event none okSend [sampleNGO] sampleData 1).2.notified
      = some (([sampleNGO].take 10).map
          (fun n => { ngo := n.name, phone := n.phone, message := messageText sampleData })) ∧
    (([sampleNGO] : List NGO).take 10).length = min 10 ([sampleNGO] : List NGO).length :=
  C1_critical_match_and_notify none okSend [sampleNGO] sampleData 1 (by decide) (by decide)

/-- C2: For every ingest request whose event type differs from
"possible_encampment", ingest never invokes the Matcher or the Dispatcher
(the outcome is independent of the NGO table and of the provider), and the
persisted Event's status is NEW; the response reports that the event was
logged with no notification needed. -/
theorem C2_noncritical_logged (twilio_sid : Option String)
    (send : NGO → Except String Unit) (ngos : List NGO) (data : ReqData)
    (new_id : Nat)
    (htype : resolvedEventType data ≠ .jstr "possible_encampment") :
    (receive_event twilio_sid send ngos data new_id).1.status = "new" ∧
    (receive_event twilio_sid send ngos data new_id).1.matched_ngos = none ∧
    (receive_event twilio_sid send ngos data new_id).2
      = { status := "ok", event_id := new_id, notified := none,
          message := "Event logged" } ∧
    ∀ (twilio_sid' : Option String) (send' : NGO → Except String Unit)
        (ngos' : List NGO),
      receive_event twilio_sid send ngos data new_id
        = receive_event twilio_sid' send' ngos' data new_id := by
  rw [receive_event_noncritical twilio_sid send ngos data new_id htype]
  refine ⟨rfl, rfl, rfl, ?_⟩
  intro twilio_sid' send' ngos'
  rw [receive_event_noncritical twilio_sid' send' ngos' data new_id htype]

theorem C2_noncritical_logged_witness :
    (receive_event none okSend [sampleNGO] motionData 1).1.status = "new" ∧
    (receive_event none okSend [sampleNGO] motionData 1).2
      = { status := "ok", event_id := 1, notified := none,
          message := "Event logged" } ∧
    receive_event none okSend [sampleNGO] motionData 1
      = receive_event (some "SID") failSend [] motionData 1 :=
  ⟨(C2_noncritical_logged none okSend [sampleNGO] motionData 1 (by decide)).1,
   (C2_noncritical_logged none okSend [sampleNGO] motionData 1 (by decide)).2.2.1,
   (C2_noncritical_logged none okSend [sampleNGO] motionData 1 (by decide)).2.2.2
     (some "SID") failSend []⟩

end LGHacks

namespace LGHacks

/-- C4 counterexample: the claim says each dispatch result entry carries a
`sent` field reflecting provider-level success; in the code the returned
entries are identical whether the provider send succeeds or raises (no
outcome is recorded in the return value), even though the provider
outcomes genuinely differ. -/
theorem C4_no_sent_field_counterexample :
    notify_ngos (some "SID") failSend [sampleNGO] sampleData
      = notify_ngos (some "SID") okSend [sampleNGO] sampleData ∧
    sendOutcomes (some "SID") failSend [sampleNGO]
      ≠ sendOutcomes (some "SID") okSend [sampleNGO] := by
  constructor
  · decide
  · decide

/-- C4 (amended): dispatch returns exactly one entry per input responder
(name, phone, message — no per-recipient sent flag is recorded, so the
returned list is independent of provider outcomes); every responder's
provider attempt happens regardless of other responders' failures, no
provider failure is raised to the caller (the attempt is absorbed inside
the loop), and the Event's status still becomes NOTIFIED. -/
theorem C4_dispatch_per_responder (twilio_sid : Option String)
    (send send' : NGO → Except String Unit) (ngos : List NGO)
    (data : ReqData) (new_id : Nat)
    (htype : resolvedEventType data = .jstr "possible_encampment")
    (hngos : ngos ≠ []) :
    (notify_ngos twilio_sid send ngos data).length = ngos.length ∧
    notify_ngos twilio_sid send ngos data
      = ngos.map (fun n => { ngo := n.name, phone := n.phone, message := messageText data }) ∧
    notify_ngos twilio_sid send ngos data = notify_ngos twilio_sid send' ngos data ∧
    (sendOutcomes twilio_sid send ngos).length = ngos.length ∧
    (receive_event twilio_sid send ngos data new_id).1.status = "notified" := by
  refine ⟨?_, notify_ngos_eq_map twilio_sid send ngos data, ?_, ?_, ?_⟩
  · rw [notify_ngos_eq_map]; exact List.length_map ngos _
  · rw [notify_ngos_eq_map, notify_ngos_eq_map]
  · exact List.length_map ngos _
  · rw [receive_event_critical twilio_sid send ngos data new_id htype hngos]

theorem C4_dispatch_per_responder_witness :
    (notify_ngos (some "SID") failSend [sampleNGO] sampleData).length
      = ([sampleNGO] : List NGO).length ∧
    notify_ngos (some "SID") failSend [sampleNGO] sampleData
      = [sampleNGO].map
          (fun n => { ngo := n.name, phone := n.phone, message := messageText sampleData }) ∧
    notify_ngos (some "SID") failSend [sampleNGO] sampleData
      = notify_ngos (some "SID") okSend [sampleNGO] sampleData ∧
    (sendOutcomes (some "SID") failSend [sampleNGO]).length
      = ([sampleNGO] : List NGO).length ∧
    (receive_event (some "SID") failSend [sampleNGO] sampleData 7).1.status = "notified" :=
  C4_dispatch_per_responder (some "SID") failSend okSend [sampleNGO] sampleData 7
    (by decide) (by decide)

/-- C5: the claim says every notification triggered for the critical type
uses the high-urgency template, including requests supplying the type only
under the `event` key. The code resolves `should_notify` from
`data.get("event") or data.get("event_type")`, but `notify_ngos` re-reads
only the raw `event_type` key; on `{"device_id": "D1",
"event": "possible_encampment"}` notification is triggered yet every
message uses the informational template. -/
theorem C5_template_key_mismatch :
    resolvedEventType eventKeyOnlyData = .jstr "possible_encampment" ∧
    (receive_event none okSend [sampleNGO] eventKeyOnlyData 1).1.status = "notified" ∧
    (receive_event none okSend [sampleNGO] eventKeyOnlyData 1).2.notified
      = some [{ ngo := "Shelter A", phone := some (.jstr "5551234"),
                message := infoText (.jstr "D1") }] ∧
    messageText eventKeyOnlyData = infoText (.jstr "D1") ∧
    infoText (.jstr "D1") ≠ alertText (.jstr "D1") := by
  refine ⟨by decide, by decide, by decide, by decide, by decide⟩

end LGHacks

namespace LGHacks

/-- C6: every reachable Event record satisfies `status = NOTIFIED ⇒
matched_responders non-empty`, and every operation (ingest for any event
type, bulk clear) preserves the invariant. -/
theorem C6_notified_nonempty_invariant :
    (∀ (store : List EventRec) (op : StoreOp),
        (∀ e ∈ store, eventInv e) → ∀ e ∈ applyOp store op, eventInv e) ∧
    ∀ (ops : List StoreOp), ∀ e ∈ runOps ops, eventInv e := by
  have hstep : ∀ (store : List EventRec) (op : StoreOp),
      (∀ e ∈ store, eventInv e) → ∀ e ∈ applyOp store op, eventInv e := by
    intro store op hstore e he
    cases op with
    | ingest twilio_sid send ngos data =>
      simp only [applyOp, List.mem_append, List.mem_singleton] at he
      rcases he with he | he
      · exact hstore e he
      · rw [he]
        exact receive_event_inv twilio_sid send ngos data (store.length + 1)
    | clear => simp [applyOp] at he
  refine ⟨hstep, ?_⟩
  have haux : ∀ (ops : List StoreOp) (store : List EventRec),
      (∀ e ∈ store, eventInv e) → ∀ e ∈ ops.foldl applyOp store, eventInv e := by
    intro ops
    induction ops with
    | nil => intro store hstore; simpa using hstore
    | cons op t ih =>
      intro store hstore
      exact ih (applyOp store op) (hstep store op hstore)
  intro ops e he
  exact haux ops [] (by simp) e he

theorem C6_notified_nonempty_invariant_witness :
    ∃ s, (receive_event none okSend [sampleNGO] sampleData 1).1.matched_ngos
        = some s ∧ s ≠ "" :=
  C6_notified_nonempty_invariant.2 [StoreOp.ingest none okSend [sampleNGO] sampleData]
    (receive_event none okSend [sampleNGO] sampleData 1).1 (by decide) (by decide)

/-- C7: ingesting a "possible_encampment" event with zero responders on
file yields a `warning` response, the Event is still persisted (appended
to the store by the ingest operation), and its stored status remains NEW. -/
theorem C7_no_responders_warning (twilio_sid : Option String)
    (send : NGO → Except String Unit) (data : ReqData) (new_id : Nat)
    (htype : resolvedEventType data = .jstr "possible_encampment") :
    (receive_event twilio_sid send [] data new_id).2.status = "warning" ∧
    (receive_event twilio_sid send [] data new_id).2.message
      = "Event saved but no NGOs registered" ∧
    (receive_event twilio_sid send [] data new_id).1.status = "new" ∧
    (receive_event twilio_sid send [] data new_id).1.matched_ngos = none ∧
    ∀ store : List EventRec,
      applyOp store (.ingest twilio_sid send [] data)
        = store ++ [(receive_event twilio_sid send [] data (store.length + 1)).1] := by
  rw [receive_event_critical_empty twilio_sid send data new_id htype]
  exact ⟨rfl, rfl, rfl, rfl, fun store => rfl⟩

theorem C7_no_responders_warning_witness :
    (receive_event none okSend [] sampleData 1).2.status = "warning" ∧
    (receive_event none okSend [] sampleData 1).1.status = "new" ∧
    applyOp [] (.ingest none okSend [] sampleData)
      = [(receive_event none okSend [] sampleData 1).1] :=
  ⟨(C7_no_responders_warning none okSend sampleData 1 (by decide)).1,
   (C7_no_responders_warning none okSend sampleData 1 (by decide)).2.2.1,
   (C7_no_responders_warning none okSend sampleData 1 (by decide)).2.2.2.2 []⟩

/-- C10: if the `event` field is missing or falsy the event type is taken
from `event_type`, and if that is also missing or falsy it defaults to
"unknown"; an empty or absent JSON body is accepted and persisted with
device_id "unknown" and event_type "unknown". -/
theorem C10_event_field_fallback (data : ReqData)
    (hfalsy : (getOrNull data.event).truthy = false) :
    resolvedEventType data = pyOr (getOrNull data.event_type) (.jstr "unknown") ∧
    ((getOrNull data.event_type).truthy = false →
      resolvedEventType data = .jstr "unknown") ∧
    ∀ (twilio_sid : Option String) (send : NGO → Except String Unit)
        (ngos : List NGO) (new_id : Nat),
      (receive_event twilio_sid send ngos emptyData new_id).1.device_id
          = .jstr "unknown" ∧
      (receive_event twilio_sid send ngos emptyData new_id).1.event_type
          = .jstr "unknown" ∧
      (receive_event twilio_sid send ngos emptyData new_id).1.status = "new" ∧
      (receive_event twilio_sid send ngos emptyData new_id).2.status = "ok" := by
  refine ⟨by simp [resolvedEventType, pyOr, hfalsy], ?_, ?_⟩
  · intro h2
    simp [resolvedEventType, pyOr, hfalsy, h2]
  · intro twilio_sid send ngos new_id
    rw [receive_event_noncritical twilio_sid send ngos emptyData new_id (by decide)]
    exact ⟨rfl, by simp [resolvedEventType, getOrNull, pyOr, emptyData, JVal.truthy], rfl, rfl⟩

theorem C10_event_field_fallback_witness :
    resolvedEventType emptyData = pyOr (getOrNull emptyData.event_type) (.jstr "unknown") ∧
    resolvedEventType emptyData = .jstr "unknown" ∧
    (receive_event none okSend [sampleNGO] emptyData 1).1.device_id = .jstr "unknown" ∧
    (receive_event none okSend [sampleNGO] emptyData 1).1.event_type = .jstr "unknown" ∧
    (receive_event none okSend [sampleNGO] emptyData 1).1.status = "new" :=
  ⟨(C10_event_field_fallback emptyData (by decide)).1,
   (C10_event_field_fallback emptyData (by decide)).2.1 (by decide),
   ((C10_event_field_fallback emptyData (by decide)).2.2 none okSend [sampleNGO] 1).1,
   ((C10_event_field_fallback emptyData (by decide)).2.2 none okSend [sampleNGO] 1).2.1,
   ((C10_event_field_fallback emptyData (by decide)).2.2 none okSend [sampleNGO] 1).2.2.1⟩

end LGHacks

namespace LGHacks

/-- C3 counterexample: the claim as stated fails when the first forwarded
payload's `timestamp_ms` is `0`. That payload is forwarded (from the
initial watermark `0`) and the watermark becomes `0`; but the guard
`last_event_time > 0` then treats the watermark as unset, so a second
payload only `1` ms later — well under `MIN_INTERVAL * 1000` — is
forwarded instead of dropped. -/
theorem C3_zero_timestamp_counterexample :
    (rateLimitStep 0 0).2 = true ∧ (rateLimitStep 0 0).1 = 0 ∧
    (1 : Int) - 0 < MIN_INTERVAL * 1000 ∧
    (rateLimitStep 0 1).2 = true := by
  refine ⟨by decide, by decide, by decide, by decide⟩

/-- C3 (amended): for consecutive forwarded-then-arriving payloads whose
first payload carries a positive `timestamp_ms`: forwarding sets the
watermark to that payload's own timestamp; a second payload less than
MIN_INTERVAL ms later is dropped with the watermark unchanged; a second
payload at least MIN_INTERVAL ms later is forwarded and the watermark
advances to its own timestamp. (With a non-positive first timestamp the
watermark stays in the "unset" range of the `last_event_time > 0` guard
and the second payload is forwarded regardless.) -/
theorem C3_rate_limit_consecutive (st t1 t2 : Int)
    (hfwd : (rateLimitStep st t1).2 = true) (hpos : 0 < t1) :
    (rateLimitStep st t1).1 = t1 ∧
    (t2 - t1 < MIN_INTERVAL * 1000 → rateLimitStep t1 t2 = (t1, false)) ∧
    (MIN_INTERVAL * 1000 ≤ t2 - t1 → rateLimitStep t1 t2 = (t2, true)) := by
  refine ⟨?_, ?_, ?_⟩
  · unfold rateLimitStep at hfwd ⊢
    by_cases hc : st > 0 ∧ t1 - st < MIN_INTERVAL * 1000
    · rw [if_pos hc] at hfwd
      simp at hfwd
    · rw [if_neg hc]
  · intro hlt
    unfold rateLimitStep
    rw [if_pos ⟨hpos, hlt⟩]
  · intro hge
    unfold rateLimitStep
    rw [if_neg (by omega)]

theorem C3_rate_limit_consecutive_witness :
    rateLimitStep 3000 4000 = (3000, false) ∧
    rateLimitStep 3000 6000 = (6000, true) ∧
    (rateLimitStep 0 3000).1 = 3000 :=
  ⟨(C3_rate_limit_consecutive 0 3000 4000 (by decide) (by decide)).2.1 (by decide),
   (C3_rate_limit_consecutive 0 3000 6000 (by decide) (by decide)).2.2 (by decide),
   (C3_rate_limit_consecutive 0 3000 6000 (by decide) (by decide)).1⟩

/-- C8: once the watermark is set (positive, as the `last_event_time > 0`
guard defines "set"), processing any payload never moves it backwards, and
any payload whose `timestamp_ms` is below the watermark plus
MIN_INTERVAL ms is silently dropped with the watermark unchanged — the
watermark never expires, so this holds for every later payload
indefinitely. -/
theorem C8_watermark_monotone (st cur : Int) (hset : 0 < st) :
    st ≤ (rateLimitStep st cur).1 ∧
    (cur < st + MIN_INTERVAL * 1000 → rateLimitStep st cur = (st, false)) := by
  constructor
  · unfold rateLimitStep
    split
    · exact le_refl st
    · rename_i hc
      rw [not_and_or] at hc
      rcases hc with hc | hc
      · exact absurd hset (by simpa using hc)
      · simp only [MIN_INTERVAL] at hc
        omega
  · intro hlt
    unfold rateLimitStep
    rw [if_pos ⟨hset, by omega⟩]

theorem C8_watermark_monotone_witness :
    (5000 : Int) ≤ (rateLimitStep 5000 1000).1 ∧
    rateLimitStep 5000 1000 = (5000, false) :=
  ⟨(C8_watermark_monotone 5000 1000 (by decide)).1,
   (C8_watermark_monotone 5000 1000 (by decide)).2 (by decide)⟩

end LGHacks

namespace LGHacks

/-- C9: interactive selection over a non-empty port list: blank input
selects the first port, a quit signal returns nothing, a numeric input is
used as a 1-based index with out-of-range values clamped into [1, count]
(so some port is always returned); when not interactive, or when the
interaction raises, the first enumerated port is auto-selected; with no
ports enumerated, nothing is returned. -/
theorem C9_choose_port_cases (avail : String → Bool) (p : String)
    (rest : List String) (inp inp' : Option UserInput) (b : Bool) (j : Int) :
    choose_port avail none (p :: rest) true (some .blank) = some p ∧
    choose_port avail none (p :: rest) true (some .quit) = none ∧
    choose_port avail none (p :: rest) true (some (.num j))
      = (p :: rest)[(max 1 (min ((p :: rest).length : Int) j) - 1).toNat]? ∧
    (1 ≤ j → j ≤ ((p :: rest).length : Int) →
      choose_port avail none (p :: rest) true (some (.num j))
        = (p :: rest)[(j - 1).toNat]?) ∧
    (∃ q, choose_port avail none (p :: rest) true (some (.num j)) = some q) ∧
    choose_port avail none (p :: rest) false inp = some p ∧
    choose_port avail none (p :: rest) true none = some p ∧
    choose_port avail none [] b inp' = none := by
  have hlen : (1 : Int) ≤ ((p :: rest).length : Int) := by
    simp
  refine ⟨?_, rfl, rfl, ?_, ?_, ?_, ?_, ?_⟩
  · show (p :: rest)[(max 1 (min ((p :: rest).length : Int) 1) - 1).toNat]? = some p
    have h1 : max 1 (min ((p :: rest).length : Int) 1) = 1 := by omega
    rw [h1]
    simp
  · intro h1 h2
    show (p :: rest)[(max 1 (min ((p :: rest).length : Int) j) - 1).toNat]?
        = (p :: rest)[(j - 1).toNat]?
    have : max 1 (min ((p :: rest).length : Int) j) = j := by omega
    rw [this]
  · have hidx : (max 1 (min ((p :: rest).length : Int) j) - 1).toNat
        < (p :: rest).length := by omega
    exact ⟨(p :: rest).get ⟨_, hidx⟩, List.getElem?_eq_getElem hidx⟩
  · cases inp <;> simp [choose_port, prefTruthy]
  · simp [choose_port, prefTruthy]
  · cases b <;> rfl

theorem C9_choose_port_cases_witness :
    choose_port (fun _ => true) none ["A", "B", "C"] true (some .blank) = some "A" ∧
    choose_port (fun _ => true) none ["A", "B", "C"] true (some .quit) = none ∧
    choose_port (fun _ => true) none ["A", "B", "C"] true (some (.num 99))
      = (["A", "B", "C"] : List String)[(max 1 (min ((["A", "B", "C"] : List String).length : Int) 99) - 1).toNat]? ∧
    choose_port (fun _ => true) none ["A", "B", "C"] true (some (.num 2))
      = (["A", "B", "C"] : List String)[((2 : Int) - 1).toNat]? ∧
    choose_port (fun _ => true) none ["A", "B", "C"] false (some .quit) = some "A" ∧
    choose_port (fun _ => true) none ["A", "B", "C"] true none = some "A" ∧
    choose_port (fun _ => true) none [] true (some .blank) = none :=
  ⟨(C9_choose_port_cases (fun _ => true) "A" ["B", "C"] (some .quit) (some .blank) true 99).1,
   (C9_choose_port_cases (fun _ => true) "A" ["B", "C"] (some .quit) (some .blank) true 99).2.1,
   (C9_choose_port_cases (fun _ => true) "A" ["B", "C"] (some .quit) (some .blank) true 99).2.2.1,
   (C9_choose_port_cases (fun _ => true) "A" ["B", "C"] (some .quit) (some .blank) true 2).2.2.2.1
     (by decide) (by decide),
   (C9_choose_port_cases (fun _ => true) "A" ["B", "C"] (some .quit) (some .blank) true 99).2.2.2.2.2.1,
   (C9_choose_port_cases (fun _ => true) "A" ["B", "C"] (some .quit) (some .blank) true 99).2.2.2.2.2.2.1,
   (C9_choose_port_cases (fun _ => true) "A" ["B", "C"] (some .quit) (some .blank) true 99).2.2.2.2.2.2.2⟩

end LGHacks
